import Mathlib

/-!
ADXL345 driver header (`inc/adxl345function.h`): register map, object handle, operations

The development embeds

* the register address macros (`#define REG_...`) and the register table of the
  file-header comment,
* the I2C addressing rule of the file-header comment,
* the declarations of `Adxl345ObjectType`, the four callback typedefs and the prototype of
  `Adxl345Initialization` (as data, to compare signatures),
* the two operations `Adxl345Initialization` and `GetValueFromAdxl345`.  Only their
  prototypes are in the header; their bodies live in `adxl345function.c`, so the two
  bodies are modelled from the specification text.
-/

namespace Adxl345

/-! Register address macros (header lines 92-121) -/

def REG_DEVID : Nat := 0x00
def REG_THRESH_TAP : Nat := 0x1D
def REG_OFSX : Nat := 0x1E
def REG_OFSY : Nat := 0x1F
def REG_OFSZ : Nat := 0x20
def REG_DUR : Nat := 0x21
def REG_Latent : Nat := 0x22
def REG_Window : Nat := 0x23
def REG_THRESH_ACT : Nat := 0x24
def THRESH_INACT : Nat := 0x25
def REG_TIME_INACT : Nat := 0x26
def REG_ACT_INACT_CTL : Nat := 0x27
def REG_THRESH_FF : Nat := 0x28
def REG_TIME_FF : Nat := 0x29
def REG_TAP_AXES : Nat := 0x2A
def REG_ACT_TAP_STATUS : Nat := 0x2B
def REG_BW_RATE : Nat := 0x2C
def REG_POWER_CTL : Nat := 0x2D
def REG_INT_ENABLE : Nat := 0x2E
def REG_INT_MAP : Nat := 0x2F
def REG_INT_SOURCE : Nat := 0x30
def REG_DATA_FORMAT : Nat := 0x31
def REG_DATAX0 : Nat := 0x32
def REG_DATAX1 : Nat := 0x33
def REG_DATAY0 : Nat := 0x34
def REG_DATAY1 : Nat := 0x35
def REG_DATAZ0 : Nat := 0x36
def REG_DATAZ1 : Nat := 0x37
def REG_FIFO_CTL : Nat := 0x38
def REG_FIFO_STATUS : Nat := 0x39

/-- The macro definitions of the header in source order: macro identifier and the value it
expands to. -/
def registerMacros : List (String × Nat) :=
  [ ("REG_DEVID", REG_DEVID),
    ("REG_THRESH_TAP", REG_THRESH_TAP),
    ("REG_OFSX", REG_OFSX),
    ("REG_OFSY", REG_OFSY),
    ("REG_OFSZ", REG_OFSZ),
    ("REG_DUR", REG_DUR),
    ("REG_Latent", REG_Latent),
    ("REG_Window", REG_Window),
    ("REG_THRESH_ACT", REG_THRESH_ACT),
    ("THRESH_INACT", THRESH_INACT),
    ("REG_TIME_INACT", REG_TIME_INACT),
    ("REG_ACT_INACT_CTL", REG_ACT_INACT_CTL),
    ("REG_THRESH_FF", REG_THRESH_FF),
    ("REG_TIME_FF", REG_TIME_FF),
    ("REG_TAP_AXES", REG_TAP_AXES),
    ("REG_ACT_TAP_STATUS", REG_ACT_TAP_STATUS),
    ("REG_BW_RATE", REG_BW_RATE),
    ("REG_POWER_CTL", REG_POWER_CTL),
    ("REG_INT_ENABLE", REG_INT_ENABLE),
    ("REG_INT_MAP", REG_INT_MAP),
    ("REG_INT_SOURCE", REG_INT_SOURCE),
    ("REG_DATA_FORMAT", REG_DATA_FORMAT),
    ("REG_DATAX0", REG_DATAX0),
    ("REG_DATAX1", REG_DATAX1),
    ("REG_DATAY0", REG_DATAY0),
    ("REG_DATAY1", REG_DATAY1),
    ("REG_DATAZ0", REG_DATAZ0),
    ("REG_DATAZ1", REG_DATAZ1),
    ("REG_FIFO_CTL", REG_FIFO_CTL),
    ("REG_FIFO_STATUS", REG_FIFO_STATUS) ]

/-- The addresses named by the macros, in source order. -/
def registerAddresses : List Nat := registerMacros.map Prod.snd

/-! Register table of the file-header comment (header lines 15-77) -/

/-- One row of the documented register table: the hexadecimal column, the decimal column
and the name column, each transcribed as printed. -/
structure TableRow where
  hex : Nat
  dec : Nat
  name : String
deriving DecidableEq, Repr

/-- The rows of the register table in the header comment, top to bottom. -/
def registerTable : List TableRow :=
  [ ⟨0x00, 0, "DEVID"⟩,
    ⟨0x1D, 29, "THRESH_TAP"⟩,
    ⟨0x1E, 30, "OFSX"⟩,
    ⟨0x1F, 31, "OFSY"⟩,
    ⟨0x20, 32, "OFSZ"⟩,
    ⟨0x21, 33, "DUR"⟩,
    ⟨0x22, 34, "Latent"⟩,
    ⟨0x23, 35, "Window"⟩,
    ⟨0x24, 36, "THRESH_ACT"⟩,
    ⟨0x25, 37, "THRESH_INACT"⟩,
    ⟨0x26, 38, "TIME_INACT"⟩,
    ⟨0x27, 39, "ACT_INACT_CTL"⟩,
    ⟨0x28, 40, "THRESH_FF"⟩,
    ⟨0x29, 41, "TIME_FF"⟩,
    ⟨0x2A, 42, "TAP_AXES"⟩,
    ⟨0x2B, 43, "ACT_TAP_STATUS"⟩,
    ⟨0x2C, 44, "BW_RATE"⟩,
    ⟨0x2D, 45, "POWER_CTL"⟩,
    ⟨0x2E, 46, "INT_ENABLE"⟩,
    ⟨0x2F, 47, "INT_MAP"⟩,
    ⟨0x30, 48, "INT_SOURCE"⟩,
    ⟨0x31, 49, "DATA_FORMAT"⟩,
    ⟨0x32, 50, "DATAX0"⟩,
    ⟨0x33, 51, "DATAX1"⟩,
    ⟨0x34, 52, "DATAY0"⟩,
    ⟨0x35, 53, "DATAY1"⟩,
    ⟨0x36, 54, "DATAZ0"⟩,
    ⟨0x37, 55, "DATAZ1"⟩,
    ⟨0x38, 56, "FIFO_CTL"⟩,
    ⟨0x39, 57, "FIFO_STATUS"⟩ ]

/-- The macro identifier that carries a table row's name: the name prefixed by `REG_`,
except for the row `THRESH_INACT`, whose macro has no prefix. -/
def macroNameOf (rowName : String) : String :=
  if rowName = "THRESH_INACT" then "THRESH_INACT" else "REG_" ++ rowName

/-- The value a macro identifier expands to, if the header defines it (first definition
in source order). -/
def macroValue (ident : String) : Option Nat :=
  (registerMacros.find? (fun m => m.1 == ident)).map Prod.snd

/-- The table rewritten as the macro list it documents: one (identifier, address) pair per
row, the address being the row's hexadecimal column. -/
def tableAsMacros : List (String × Nat) :=
  registerTable.map (fun r => (macroNameOf r.name, r.hex))

/-! I2C addressing rule of the file-header comment (header lines 10-13)

The comment states that the 7-bit I2C address is followed by the R/W bit, and lists the
resulting bus bytes for both settings of the ALT ADDRESS pin. -/

/-- The R/W bit of a write transfer. -/
def I2C_WRITE_BIT : Nat := 0

/-- The R/W bit of a read transfer. -/
def I2C_READ_BIT : Nat := 1

/-- The bus byte formed by a 7-bit address followed by the R/W bit. -/
def i2cBusByte (addr7 rw : Nat) : Nat := (addr7 <<< 1) ||| rw

/-- The 7-bit address documented for ALT ADDRESS high. -/
def I2C_ADDR_ALT_HIGH : Nat := 0x1D

/-- The write byte documented for ALT ADDRESS high. -/
def I2C_DOC_WRITE_ALT_HIGH : Nat := 0x3A

/-- The read byte documented for ALT ADDRESS high. -/
def I2C_DOC_READ_ALT_HIGH : Nat := 0x3B

/-- The 7-bit address documented for ALT ADDRESS grounded. -/
def I2C_ADDR_ALT_GND : Nat := 0x53

/-- The write byte documented for ALT ADDRESS grounded. -/
def I2C_DOC_WRITE_ALT_GND : Nat := 0xA6

/-- The read byte documented for ALT ADDRESS grounded. -/
def I2C_DOC_READ_ALT_GND : Nat := 0xA7

/-- Number of values of a `uint8_t` (the type of `devAddress` and of `regAdd`). -/
def UINT8_RANGE : Nat := 2 ^ 8

/-! The C declarations as data (header lines 124-169) -/

/-- The C types occurring in the declarations of the header. -/
inductive CType where
  | void
  | uint8_t
  | uint16_t
  | uint32_t
  | int16_t
  | float
  | volatile (t : CType)
  | ptr (t : CType)
  | structTag (tag : String)
  | typedefName (ident : String)
deriving DecidableEq, Repr

/-- A named parameter of a function or function-pointer declarator. -/
structure CParam where
  name : String
  type : CType
deriving DecidableEq, Repr

/-- The signature of a pointer-to-function declarator: return type and parameters. -/
structure FunPtrSig where
  ret : CType
  params : List CParam
deriving DecidableEq, Repr

/-- A struct member is either a data member or a pointer-to-function member. -/
inductive MemberType where
  | data (t : CType)
  | callback (sig : FunPtrSig)
deriving DecidableEq, Repr

/-- A struct member: its name and type. -/
structure Member where
  name : String
  type : MemberType
deriving DecidableEq, Repr

/-- The members of `struct Adxl345Object` in declaration order (header lines 137-153). -/
def Adxl345Object_members : List Member :=
  [ ⟨"devAddress", .data .uint8_t⟩,
    ⟨"devID", .data .uint8_t⟩,
    ⟨"port", .data (.typedefName "Adxl345PortType")⟩,
    ⟨"incidence_X", .data .int16_t⟩,
    ⟨"incidence_Y", .data .int16_t⟩,
    ⟨"incidence_Z", .data .int16_t⟩,
    ⟨"incidence_Xf", .data .float⟩,
    ⟨"incidence_Yf", .data .float⟩,
    ⟨"incidence_Zf", .data .float⟩,
    ⟨"ReadBytes", .callback ⟨.void,
        [⟨"adxl", .ptr (.structTag "Adxl345Object")⟩, ⟨"regAdd", .uint8_t⟩,
         ⟨"rData", .ptr .uint8_t⟩, ⟨"rSize", .uint16_t⟩]⟩⟩,
    ⟨"WriteBytes", .callback ⟨.void,
        [⟨"adxl", .ptr (.structTag "Adxl345Object")⟩, ⟨"regAdd", .uint8_t⟩,
         ⟨"wData", .ptr .uint8_t⟩, ⟨"wSize", .uint16_t⟩]⟩⟩,
    ⟨"ChipSelect", .callback ⟨.void, [⟨"en", .typedefName "Adxl345CSType"⟩]⟩⟩,
    ⟨"Delayus", .callback ⟨.void, [⟨"nTime", .volatile .uint32_t⟩]⟩⟩ ]

/-- The four callback typedefs (header lines 155-158): typedef name and signature. -/
def callbackTypedefs : List (String × FunPtrSig) :=
  [ ("Adxl345ReadBytesType", ⟨.void,
        [⟨"adxl", .ptr (.structTag "Adxl345Object")⟩, ⟨"regAdd", .uint8_t⟩,
         ⟨"rData", .ptr .uint8_t⟩, ⟨"rSize", .uint16_t⟩]⟩),
    ("Adxl345WriteBytesType", ⟨.void,
        [⟨"adxl", .ptr (.structTag "Adxl345Object")⟩, ⟨"regAdd", .uint8_t⟩,
         ⟨"wData", .ptr .uint8_t⟩, ⟨"wSize", .uint16_t⟩]⟩),
    ("Adxl345ChipSelectType", ⟨.void, [⟨"en", .typedefName "Adxl345CSType"⟩]⟩),
    ("Adxl345DelayType", ⟨.void, [⟨"nTime", .volatile .uint32_t⟩]⟩) ]

/-- The parameters of the prototype of `Adxl345Initialization` (header lines 164-169). -/
def Adxl345Initialization_params : List CParam :=
  [ ⟨"adxl", .ptr (.typedefName "Adxl345ObjectType")⟩,
    ⟨"devAdd", .uint8_t⟩,
    ⟨"port", .typedefName "Adxl345PortType"⟩,
    ⟨"read", .typedefName "Adxl345ReadBytesType"⟩,
    ⟨"write", .typedefName "Adxl345WriteBytesType"⟩,
    ⟨"cs", .typedefName "Adxl345ChipSelectType"⟩,
    ⟨"delay", .typedefName "Adxl345DelayType"⟩ ]

/-- The signature a type stands for when it is one of the callback typedefs. -/
def callbackSigOf : CType → Option FunPtrSig
  | .typedefName ident => (callbackTypedefs.find? (fun d => d.1 == ident)).map Prod.snd
  | _ => none

/-- The pointer-to-function members of the struct: name and signature, in order. -/
def callbackMembers : List (String × FunPtrSig) :=
  Adxl345Object_members.filterMap (fun m =>
    match m.type with
    | .callback sig => some (m.name, sig)
    | .data _ => none)

/-- The data members of the struct: name and type, in order. -/
def dataMembers : List (String × CType) :=
  Adxl345Object_members.filterMap (fun m =>
    match m.type with
    | .data t => some (m.name, t)
    | .callback _ => none)

/-- The parameters of `Adxl345Initialization` that are function references: parameter name
and the signature of its typedef, in order. -/
def callbackParams : List (String × FunPtrSig) :=
  Adxl345Initialization_params.filterMap (fun p =>
    (callbackSigOf p.type).map (fun sig => (p.name, sig)))

/-! The object handle and the transport (header lines 124-158) -/

/-- Chip-select signal (`enum Adxl345CS`). -/
inductive Adxl345CSType where
  | ADXL345CS_Enable
  | ADXL345CS_Disable
deriving DecidableEq, Repr

/-- Communication interface (`enum Adxl345Port`). -/
inductive Adxl345PortType where
  | ADXL345_I2C
  | ADXL345_SPI
deriving DecidableEq, Repr

/-- A register read callback.  The C callback receives the object pointer, the register
address, the destination buffer and the byte count; here the object is represented by the
device address it carries, the buffer by the returned bytes, and the hardware by a state of
type `W` that the call may change. -/
def Adxl345ReadBytesType (W : Type) : Type := Nat → Nat → Nat → W → List Nat × W

/-- A register write callback: device address, register address, bytes to write (their
count is the length of the list), hardware state. -/
def Adxl345WriteBytesType (W : Type) : Type := Nat → Nat → List Nat → W → W

/-- The chip-select callback (used with the SPI interface). -/
def Adxl345ChipSelectType (W : Type) : Type := Adxl345CSType → W → W

/-- The microsecond delay callback. -/
def Adxl345DelayType (W : Type) : Type := Nat → W → W

/-- The object handle `Adxl345ObjectType`, member for member.  `uint8_t` and `int16_t`
members are `Nat` and `Int`; the three `float` members have values in a type `F` that the
embedding leaves abstract. -/
structure Adxl345ObjectType (W F : Type) where
  devAddress : Nat
  devID : Nat
  port : Adxl345PortType
  incidence_X : Int
  incidence_Y : Int
  incidence_Z : Int
  incidence_Xf : F
  incidence_Yf : F
  incidence_Zf : F
  ReadBytes : Adxl345ReadBytesType W
  WriteBytes : Adxl345WriteBytesType W
  ChipSelect : Adxl345ChipSelectType W
  Delayus : Adxl345DelayType W

/-- One invocation of a transport callback by the driver. -/
inductive BusCall where
  | read (devAddress regAdd rSize : Nat)
  | write (devAddress regAdd : Nat) (wData : List Nat)
  | chipSelect (en : Adxl345CSType)
  | delay (nTime : Nat)
deriving DecidableEq, Repr

/-- The environment the driver runs in: the hardware state and the record of every callback
invocation made so far, oldest first. -/
structure Bus (W : Type) where
  world : W
  log : List BusCall

/-- Invoke a read callback: the invocation is recorded and the hardware state advanced. -/
def Bus.invokeRead {W : Type} (f : Adxl345ReadBytesType W) (devAddress regAdd rSize : Nat)
    (bus : Bus W) : List Nat × Bus W :=
  let r := f devAddress regAdd rSize bus.world
  (r.1, { world := r.2, log := bus.log ++ [BusCall.read devAddress regAdd rSize] })

/-- The callback invocations made between two environments of one run. -/
def callsIssued {W : Type} (before after : Bus W) : List BusCall :=
  after.log.drop before.log.length

/-- Whether a callback invocation is bus traffic, that is a call of the byte-read or of the
byte-write callback. -/
def BusCall.isTraffic : BusCall → Bool
  | .read _ _ _ => true
  | .write _ _ _ => true
  | .chipSelect _ => false
  | .delay _ => false

/-- The registers a multi-byte read of `rSize` bytes starting at `regAdd` covers, in the
order their bytes arrive: consecutive addresses from `regAdd` upwards. -/
def burstRegisters (regAdd rSize : Nat) : List Nat := List.range' regAdd rSize

/-! The two operations (prototypes at header lines 160-169) -/

/-- The value of a 16-bit pattern read as a two's-complement `int16_t`. -/
def toInt16 (u : Nat) : Int :=
  if u % 2 ^ 16 < 2 ^ 15 then ((u % 2 ^ 16 : Nat) : Int) else ((u % 2 ^ 16 : Nat) : Int) - 2 ^ 16

/-- Modelled from the spec: the per-axis decode inside `GetValueFromAdxl345`, whose body is
in `adxl345function.c` and not in the header.  The spec describes it as the decode of a
two-byte little-endian pair into a signed 16-bit value: the low byte comes first, the high
byte carries the upper eight bits, and the 16-bit pattern is read as an `int16_t`. -/
def decodeAxis (lo hi : Nat) : Int :=
  toInt16 (lo % 2 ^ 8 + 2 ^ 8 * (hi % 2 ^ 8))

/-- Modelled from the spec: the body of `GetValueFromAdxl345`, which is in
`adxl345function.c` and not in the header.  Following the spec, sample acquisition issues
one burst read of six consecutive data registers (starting at `REG_DATAX0`), decodes the
six bytes as little-endian signed 16-bit values, one per axis, and converts each raw value
into the floating-point member of the same axis by one fixed scaling.  The scaling, a
floating-point product with the sensitivity constant, is the parameter `scale`.  The
buffer `dataTemp` holds `uint8_t` values; a position the callback did not fill reads 0. -/
def GetValueFromAdxl345 {W F : Type} (scale : Int → F) (adxl : Adxl345ObjectType W F)
    (bus : Bus W) : Adxl345ObjectType W F × Bus W :=
  let r := bus.invokeRead adxl.ReadBytes adxl.devAddress REG_DATAX0 6
  let dataTemp : Nat → Nat := fun i => r.1.getD i 0
  let x := decodeAxis (dataTemp 0) (dataTemp 1)
  let y := decodeAxis (dataTemp 2) (dataTemp 3)
  let z := decodeAxis (dataTemp 4) (dataTemp 5)
  ({ adxl with
      incidence_X := x, incidence_Y := y, incidence_Z := z,
      incidence_Xf := scale x, incidence_Yf := scale y, incidence_Zf := scale z },
   r.2)

/-- Modelled from the spec: the body of `Adxl345Initialization`, which is in
`adxl345function.c` and not in the header.  Following the spec, initialization stores the
transport callbacks and the device address passed in into the object handle, and issues no
bus traffic itself.  The spec names no other stored value, so the remaining members are
left as they were. -/
def Adxl345Initialization {W F : Type} (adxl : Adxl345ObjectType W F) (devAdd : Nat)
    (_port : Adxl345PortType) (read : Adxl345ReadBytesType W)
    (write : Adxl345WriteBytesType W) (cs : Adxl345ChipSelectType W)
    (delay : Adxl345DelayType W) (bus : Bus W) : Adxl345ObjectType W F × Bus W :=
  ({ adxl with
      devAddress := devAdd, ReadBytes := read, WriteBytes := write,
      ChipSelect := cs, Delayus := delay },
   bus)

/-! Sample data used to exercise the operations -/

/-- A transport whose read callback always delivers the bytes
`0x38 0xFF 0x00 0x80 0xFF 0x7F`. -/
def sampleRead : Adxl345ReadBytesType Unit :=
  fun _ _ _ w => ([0x38, 0xFF, 0x00, 0x80, 0xFF, 0x7F], w)

/-- An object handle wired to `sampleRead`, with all samples zero. -/
def sampleObject : Adxl345ObjectType Unit Int :=
  { devAddress := 0xA6, devID := 0xE5, port := .ADXL345_I2C,
    incidence_X := 0, incidence_Y := 0, incidence_Z := 0,
    incidence_Xf := 0, incidence_Yf := 0, incidence_Zf := 0,
    ReadBytes := sampleRead,
    WriteBytes := fun _ _ _ w => w,
    ChipSelect := fun _ w => w,
    Delayus := fun _ w => w }

/-- An environment in which no callback has been invoked yet. -/
def sampleBus : Bus Unit := { world := (), log := [] }

/-! Auxiliary facts -/

theorem toInt16_of_lt {u : Nat} (h : u < 2 ^ 15) : toInt16 u = (u : Int) := by
  unfold toInt16
  split <;> omega

theorem toInt16_of_ge {u : Nat} (h : 2 ^ 15 ≤ u) (h2 : u < 2 ^ 16) :
    toInt16 u = (u : Int) - 2 ^ 16 := by
  unfold toInt16
  split <;> omega

theorem decodeAxis_eq {lo hi : Nat} (hlo : lo ≤ 255) (hhi : hi ≤ 255) :
    decodeAxis lo hi
      = if hi < 128 then (lo : Int) + 256 * (hi : Int)
        else (lo : Int) + 256 * (hi : Int) - 65536 := by
  have e1 : lo % 2 ^ 8 = lo := Nat.mod_eq_of_lt (by omega)
  have e2 : hi % 2 ^ 8 = hi := Nat.mod_eq_of_lt (by omega)
  unfold decodeAxis
  rw [e1, e2]
  by_cases h : hi < 128
  · rw [if_pos h, toInt16_of_lt (by omega)]
    push_cast
    ring
  · rw [if_neg h, toInt16_of_ge (by omega) (by omega)]
    push_cast
    ring

theorem decodeAxis_range (lo hi : Nat) :
    -32768 ≤ decodeAxis lo hi ∧ decodeAxis lo hi ≤ 32767 := by
  unfold decodeAxis toInt16
  split <;> omega

theorem getValue_fst {W F : Type} (scale : Int → F) (adxl : Adxl345ObjectType W F)
    (bus : Bus W) (b0 b1 b2 b3 b4 b5 : Nat) (w' : W)
    (hread : adxl.ReadBytes adxl.devAddress REG_DATAX0 6 bus.world
              = ([b0, b1, b2, b3, b4, b5], w')) :
    (GetValueFromAdxl345 scale adxl bus).1.incidence_X = decodeAxis b0 b1 ∧
    (GetValueFromAdxl345 scale adxl bus).1.incidence_Y = decodeAxis b2 b3 ∧
    (GetValueFromAdxl345 scale adxl bus).1.incidence_Z = decodeAxis b4 b5 := by
  simp [GetValueFromAdxl345, Bus.invokeRead, hread]

theorem callsIssued_append {W : Type} (bus : Bus W) (w : W) (cs : List BusCall) :
    callsIssued bus { world := w, log := bus.log ++ cs } = cs := by
  simp [callsIssued]

/-! Sample decode -/

/-- C1: when the burst read delivers the six bytes `b0 .. b5` (each at most 255),
`GetValueFromAdxl345` stores in `incidence_X`, `incidence_Y`, `incidence_Z` the signed
16-bit two's-complement value of the little-endian pairs `(b0, b1)`, `(b2, b3)`, `(b4, b5)`:
`lo + 256 * hi` when `hi < 128` and `lo + 256 * hi - 65536` otherwise; each result lies in
`[-32768, 32767]`. -/
theorem getValue_decodes_signed_le16 {W F : Type} (scale : Int → F)
    (adxl : Adxl345ObjectType W F) (bus : Bus W) (b0 b1 b2 b3 b4 b5 : Nat) (w' : W)
    (h0 : b0 ≤ 255) (h1 : b1 ≤ 255) (h2 : b2 ≤ 255) (h3 : b3 ≤ 255) (h4 : b4 ≤ 255)
    (h5 : b5 ≤ 255)
    (hread : adxl.ReadBytes adxl.devAddress REG_DATAX0 6 bus.world
              = ([b0, b1, b2, b3, b4, b5], w')) :
    ((GetValueFromAdxl345 scale adxl bus).1.incidence_X
        = if b1 < 128 then (b0 : Int) + 256 * (b1 : Int)
          else (b0 : Int) + 256 * (b1 : Int) - 65536) ∧
    ((GetValueFromAdxl345 scale adxl bus).1.incidence_Y
        = if b3 < 128 then (b2 : Int) + 256 * (b3 : Int)
          else (b2 : Int) + 256 * (b3 : Int) - 65536) ∧
    ((GetValueFromAdxl345 scale adxl bus).1.incidence_Z
        = if b5 < 128 then (b4 : Int) + 256 * (b5 : Int)
          else (b4 : Int) + 256 * (b5 : Int) - 65536) ∧
    (-32768 ≤ (GetValueFromAdxl345 scale adxl bus).1.incidence_X ∧
      (GetValueFromAdxl345 scale adxl bus).1.incidence_X ≤ 32767) ∧
    (-32768 ≤ (GetValueFromAdxl345 scale adxl bus).1.incidence_Y ∧
      (GetValueFromAdxl345 scale adxl bus).1.incidence_Y ≤ 32767) ∧
    (-32768 ≤ (GetValueFromAdxl345 scale adxl bus).1.incidence_Z ∧
      (GetValueFromAdxl345 scale adxl bus).1.incidence_Z ≤ 32767) := by
  obtain ⟨hx, hy, hz⟩ := getValue_fst scale adxl bus b0 b1 b2 b3 b4 b5 w' hread
  refine ⟨?_, ?_, ?_, ?_, ?_, ?_⟩
  · rw [hx]; exact decodeAxis_eq h0 h1
  · rw [hy]; exact decodeAxis_eq h2 h3
  · rw [hz]; exact decodeAxis_eq h4 h5
  · rw [hx]; exact decodeAxis_range b0 b1
  · rw [hy]; exact decodeAxis_range b2 b3
  · rw [hz]; exact decodeAxis_range b4 b5

/-- Witness for C1: with the bytes `38 FF 00 80 FF 7F` the decoded samples are
`-200`, `-32768` and `32767`. -/
theorem getValue_decodes_signed_le16_witness :
    sampleObject.ReadBytes sampleObject.devAddress REG_DATAX0 6 sampleBus.world
        = ([0x38, 0xFF, 0x00, 0x80, 0xFF, 0x7F], ()) ∧
    (GetValueFromAdxl345 id sampleObject sampleBus).1.incidence_X = -200 ∧
    (GetValueFromAdxl345 id sampleObject sampleBus).1.incidence_Y = -32768 ∧
    (GetValueFromAdxl345 id sampleObject sampleBus).1.incidence_Z = 32767 := by
  have h := getValue_decodes_signed_le16 id sampleObject sampleBus
    0x38 0xFF 0x00 0x80 0xFF 0x7F () (by decide) (by decide) (by decide) (by decide)
    (by decide) (by decide) rfl
  refine ⟨rfl, ?_, ?_, ?_⟩
  · rw [h.1]; decide
  · rw [h.2.1]; decide
  · rw [h.2.2.1]; decide

/-! Initialization -/

/-- C2: after `Adxl345Initialization` the member `devAddress` equals `devAdd`, and the
members `ReadBytes`, `WriteBytes`, `ChipSelect`, `Delayus` equal `read`, `write`, `cs`,
`delay`, for every object and every argument tuple. -/
theorem initialization_stores_arguments {W F : Type} (adxl : Adxl345ObjectType W F)
    (devAdd : Nat) (port : Adxl345PortType) (read : Adxl345ReadBytesType W)
    (write : Adxl345WriteBytesType W) (cs : Adxl345ChipSelectType W)
    (delay : Adxl345DelayType W) (bus : Bus W) :
    (Adxl345Initialization adxl devAdd port read write cs delay bus).1.devAddress = devAdd ∧
    (Adxl345Initialization adxl devAdd port read write cs delay bus).1.ReadBytes = read ∧
    (Adxl345Initialization adxl devAdd port read write cs delay bus).1.WriteBytes = write ∧
    (Adxl345Initialization adxl devAdd port read write cs delay bus).1.ChipSelect = cs ∧
    (Adxl345Initialization adxl devAdd port read write cs delay bus).1.Delayus = delay :=
  ⟨rfl, rfl, rfl, rfl, rfl⟩

/-- C5: `Adxl345Initialization` invokes no callback: the environment (hardware state and
invocation record) is returned unchanged, so the invocations it issued are none and in
particular contain no call of the byte-read or byte-write callback. -/
theorem initialization_issues_no_bus_traffic {W F : Type} (adxl : Adxl345ObjectType W F)
    (devAdd : Nat) (port : Adxl345PortType) (read : Adxl345ReadBytesType W)
    (write : Adxl345WriteBytesType W) (cs : Adxl345ChipSelectType W)
    (delay : Adxl345DelayType W) (bus : Bus W) :
    (Adxl345Initialization adxl devAdd port read write cs delay bus).2 = bus ∧
    callsIssued bus (Adxl345Initialization adxl devAdd port read write cs delay bus).2 = [] ∧
    (callsIssued bus
      (Adxl345Initialization adxl devAdd port read write cs delay bus).2).any
        BusCall.isTraffic = false := by
  have h : callsIssued bus
      (Adxl345Initialization adxl devAdd port read write cs delay bus).2 = [] := by
    simp [Adxl345Initialization, callsIssued]
  exact ⟨rfl, h, by rw [h]; rfl⟩

/-! Output data registers and the burst read -/

/-- C3: the six output data registers are consecutive, from `REG_DATAX0 = 0x32` to
`REG_DATAZ1 = 0x37`, in the order X0, X1, Y0, Y1, Z0, Z1; the only callback invocation of
`GetValueFromAdxl345` is a read of 6 bytes starting at `REG_DATAX0`, and such a burst covers
exactly these six registers, each low byte right before its high byte. -/
theorem data_registers_consecutive_and_burst {W F : Type} (scale : Int → F)
    (adxl : Adxl345ObjectType W F) (bus : Bus W) :
    REG_DATAX0 = 0x32 ∧ REG_DATAX1 = REG_DATAX0 + 1 ∧ REG_DATAY0 = REG_DATAX1 + 1 ∧
    REG_DATAY1 = REG_DATAY0 + 1 ∧ REG_DATAZ0 = REG_DATAY1 + 1 ∧
    REG_DATAZ1 = REG_DATAZ0 + 1 ∧ REG_DATAZ1 = 0x37 ∧
    callsIssued bus (GetValueFromAdxl345 scale adxl bus).2
      = [BusCall.read adxl.devAddress REG_DATAX0 6] ∧
    burstRegisters REG_DATAX0 6
      = [REG_DATAX0, REG_DATAX1, REG_DATAY0, REG_DATAY1, REG_DATAZ0, REG_DATAZ1] := by
  refine ⟨rfl, rfl, rfl, rfl, rfl, rfl, rfl, ?_, by decide⟩
  exact callsIssued_append bus _ _

/-! Register map -/

/-- C6: every address defined by a register macro lies between `REG_DEVID = 0x00` and
`REG_FIFO_STATUS = 0x39` inclusive, both of which are defined, and is a `uint8_t` value. -/
theorem register_address_in_range (ident : String) (addr : Nat)
    (h : (ident, addr) ∈ registerMacros) :
    REG_DEVID ≤ addr ∧ addr ≤ REG_FIFO_STATUS ∧ addr < UINT8_RANGE ∧
    REG_DEVID = 0x00 ∧ REG_FIFO_STATUS = 0x39 ∧
    REG_DEVID ∈ registerAddresses ∧ REG_FIFO_STATUS ∈ registerAddresses := by
  have key : ∀ m ∈ registerMacros,
      REG_DEVID ≤ m.2 ∧ m.2 ≤ REG_FIFO_STATUS ∧ m.2 < UINT8_RANGE := by decide
  obtain ⟨k1, k2, k3⟩ := key (ident, addr) h
  exact ⟨k1, k2, k3, rfl, rfl, by decide, by decide⟩

/-- Witness for C6 at the macro `REG_DATAX0`. -/
theorem register_address_in_range_witness :
    ("REG_DATAX0", 0x32) ∈ registerMacros ∧
    (REG_DEVID ≤ 0x32 ∧ 0x32 ≤ REG_FIFO_STATUS ∧ 0x32 < UINT8_RANGE ∧
      REG_DEVID = 0x00 ∧ REG_FIFO_STATUS = 0x39 ∧
      REG_DEVID ∈ registerAddresses ∧ REG_FIFO_STATUS ∈ registerAddresses) :=
  ⟨by decide, register_address_in_range "REG_DATAX0" 0x32 (by decide)⟩

/-- C7: the register table of the header comment and the macro definitions agree: in every
row the decimal column equals the hexadecimal column, the macro named after the row
(`REG_<name>`, or `THRESH_INACT`) is defined with the row's address, and row by row the
table yields exactly the list of macros, both having 30 entries with pairwise different
identifiers. -/
theorem register_table_agrees_with_macros :
    registerTable.map (fun r => r.dec) = registerTable.map (fun r => r.hex) ∧
    registerTable.map (fun r => macroValue (macroNameOf r.name))
      = registerTable.map (fun r => some r.hex) ∧
    tableAsMacros = registerMacros ∧
    registerTable.length = 30 ∧ registerMacros.length = 30 ∧
    (registerMacros.map Prod.fst).Nodup ∧ (registerTable.map (fun r => r.name)).Nodup := by
  refine ⟨by decide, by decide, by decide, by decide, by decide, by decide, by decide⟩

/-- C10: no two register macros share an address, and an address is named by a macro
exactly when it is `0x00` or lies in `0x1D .. 0x39`; there are 30 addresses, and each such
address is named exactly once (no address in `0x01 .. 0x1C` is named). -/
theorem register_map_injective_gap_free (a : Nat) :
    registerAddresses.Nodup ∧ registerAddresses.length = 30 ∧
    (a ∈ registerAddresses ↔ (a = 0x00 ∨ (0x1D ≤ a ∧ a ≤ 0x39))) ∧
    registerAddresses.count a = (if a = 0x00 ∨ (0x1D ≤ a ∧ a ≤ 0x39) then 1 else 0) := by
  have hmem : a ∈ registerAddresses ↔ (a = 0x00 ∨ (0x1D ≤ a ∧ a ≤ 0x39)) := by
    by_cases hle : a ≤ 0x39
    · interval_cases a <;> decide
    · constructor
      · intro hin
        have hb : ∀ x ∈ registerAddresses, x ≤ 0x39 := by decide
        exact absurd (hb a hin) hle
      · intro hr
        omega
  have hnd : registerAddresses.Nodup := by decide
  refine ⟨hnd, by decide, hmem, ?_⟩
  by_cases hin : a ∈ registerAddresses
  · rw [if_pos (hmem.mp hin)]
    exact List.count_eq_one_of_mem hnd hin
  · rw [if_neg (fun hr => hin (hmem.mpr hr))]
    exact List.count_eq_zero_of_not_mem hin

/-! I2C addressing -/

/-- C8: for a 7-bit address `a`, the bus byte of a write is `2 * a` and of a read is
`2 * a + 1`, both `uint8_t` values; for `0x1D` this gives the documented `0x3A` / `0x3B`
and for `0x53` the documented `0xA6` / `0xA7`, all of which fit the 8-bit `devAddress`. -/
theorem i2c_bus_bytes (a : Nat) (h : a < 128) :
    i2cBusByte a I2C_WRITE_BIT = 2 * a ∧ i2cBusByte a I2C_READ_BIT = 2 * a + 1 ∧
    i2cBusByte a I2C_WRITE_BIT < UINT8_RANGE ∧ i2cBusByte a I2C_READ_BIT < UINT8_RANGE ∧
    i2cBusByte I2C_ADDR_ALT_HIGH I2C_WRITE_BIT = I2C_DOC_WRITE_ALT_HIGH ∧
    i2cBusByte I2C_ADDR_ALT_HIGH I2C_READ_BIT = I2C_DOC_READ_ALT_HIGH ∧
    i2cBusByte I2C_ADDR_ALT_GND I2C_WRITE_BIT = I2C_DOC_WRITE_ALT_GND ∧
    i2cBusByte I2C_ADDR_ALT_GND I2C_READ_BIT = I2C_DOC_READ_ALT_GND ∧
    I2C_DOC_WRITE_ALT_HIGH < UINT8_RANGE ∧ I2C_DOC_READ_ALT_HIGH < UINT8_RANGE ∧
    I2C_DOC_WRITE_ALT_GND < UINT8_RANGE ∧ I2C_DOC_READ_ALT_GND < UINT8_RANGE := by
  have key : ∀ x, x < 128 →
      i2cBusByte x I2C_WRITE_BIT = 2 * x ∧ i2cBusByte x I2C_READ_BIT = 2 * x + 1 ∧
      i2cBusByte x I2C_WRITE_BIT < UINT8_RANGE ∧ i2cBusByte x I2C_READ_BIT < UINT8_RANGE := by
    decide
  obtain ⟨k1, k2, k3, k4⟩ := key a h
  exact ⟨k1, k2, k3, k4, by decide, by decide, by decide, by decide,
    by decide, by decide, by decide, by decide⟩

/-- Witness for C8 at the 7-bit address `0x53`. -/
theorem i2c_bus_bytes_witness :
    0x53 < 128 ∧ i2cBusByte 0x53 I2C_WRITE_BIT = 0xA6 ∧ i2cBusByte 0x53 I2C_READ_BIT = 0xA7 :=
  ⟨by decide, (i2c_bus_bytes 0x53 (by decide)).1, (i2c_bus_bytes 0x53 (by decide)).2.1⟩

/-! Shape of the object handle -/

/-- C9: the struct has exactly four pointer-to-function members, `ReadBytes`, `WriteBytes`,
`ChipSelect`, `Delayus`; `Adxl345Initialization` takes exactly four function references,
`read`, `write`, `cs`, `delay`, of the types `Adxl345ReadBytesType`,
`Adxl345WriteBytesType`, `Adxl345ChipSelectType`, `Adxl345DelayType`, whose signatures are
those of the corresponding members; the other members are one device address, one ID byte,
one port tag, three `int16_t` samples and three `float` samples, 13 members in all. -/
theorem object_members_and_callback_signatures :
    callbackMembers.map Prod.fst = ["ReadBytes", "WriteBytes", "ChipSelect", "Delayus"] ∧
    callbackParams.map Prod.fst = ["read", "write", "cs", "delay"] ∧
    (Adxl345Initialization_params.filter (fun p => (callbackSigOf p.type).isSome)).map
        (fun p => p.type)
      = [.typedefName "Adxl345ReadBytesType", .typedefName "Adxl345WriteBytesType",
         .typedefName "Adxl345ChipSelectType", .typedefName "Adxl345DelayType"] ∧
    callbackParams.map Prod.snd = callbackMembers.map Prod.snd ∧
    dataMembers
      = [("devAddress", .uint8_t), ("devID", .uint8_t),
         ("port", .typedefName "Adxl345PortType"),
         ("incidence_X", .int16_t), ("incidence_Y", .int16_t), ("incidence_Z", .int16_t),
         ("incidence_Xf", .float), ("incidence_Yf", .float), ("incidence_Zf", .float)] ∧
    Adxl345Object_members.length = 13 ∧
    callbackMembers.length + dataMembers.length = Adxl345Object_members.length := by
  refine ⟨by decide, by decide, by decide, by decide, by decide, by decide, by decide⟩

end Adxl345
